import Mathlib

/-!
Verification development for the FARO document-metadata normalizer
(`faro/document_metadata.py`, class `FARO_Document`).

The Python class is shallowly embedded as pure Lean functions:

* a Tika metadata map is an association list `MetaDict` from string keys to
  `MetaValue` (string, list of strings, boolean, or integer values);
* exceptions (`KeyError`, `IndexError`, `ValueError`) are modelled with
  `Except PyErr`;
* attributes of the Python object that may be left unset are modelled as
  `Option` fields of `FieldState`, with `none` standing both for an attribute
  that was never assigned and for an attribute assigned Python `None`
  (the two are indistinguishable through `getattr(self, name, None)`);
* the external collaborators are parameters: `clean` is the external
  `preprocess_text` utility, `det` is the external language detector
  (its detection-specific exception is modelled as `Unit`), and the external
  `parse_file` call is represented by its outcome, an
  `Except PyErr (Option String × Option MetaDict)`.

String manipulation is done at the character-list level so that every
definition evaluates inside the kernel.
-/

/-- Values occurring in a Tika metadata map: plain strings, lists of strings,
booleans (for `ocr_parsing`) and integers (for `filesize`). -/
inductive MetaValue where
  | str (s : String)
  | list (l : List String)
  | bool (b : Bool)
  | int (n : Int)
deriving DecidableEq

/-- A Tika metadata map, modelled as an association list with unique keys
(Python `dict`); lookups use the first matching key. -/
abbrev MetaDict := List (String × MetaValue)

/-- Python exceptions that the metadata-resolution code can raise. -/
inductive PyErr where
  | keyError (k : String)
  | indexError
  | valueError
deriving DecidableEq

/-- Characters stripped by Python `str.strip()` (ASCII whitespace). -/
def isPySpace (c : Char) : Bool :=
  c == ' ' || c == '\t' || c == '\n' || c == '\r' ||
    c == Char.ofNat 11 || c == Char.ofNat 12

/-- Python `str.strip()`: remove leading and trailing whitespace. -/
def pyStrip (s : String) : String :=
  (((s.toList.dropWhile isPySpace).reverse.dropWhile isPySpace).reverse).asString

/-- Split a character list at every occurrence of `c`, keeping empty pieces,
as Python `str.split(c)` does (so the empty input gives one empty piece). -/
def splitOnChar (c : Char) : List Char → List (List Char)
  | [] => [[]]
  | x :: xs =>
    match splitOnChar c xs with
    | [] => [[x]]
    | g :: gs => if x == c then [] :: g :: gs else (x :: g) :: gs

/-- Python `text.split("\n")` on a string. -/
def pySplitLines (s : String) : List String :=
  (splitOnChar '\n' s.toList).map List.asString

/-- Python `sep.join(xs)`. -/
def pyJoin (sep : String) : List String → String
  | [] => ""
  | [x] => x
  | x :: y :: xs => x ++ sep ++ pyJoin sep (y :: xs)

/-- A word character in the sense of the regex `\w` (restricted to ASCII):
a letter, a digit, or an underscore. -/
def isWordChar (c : Char) : Bool :=
  c.isAlphanum || c == '_'

/-- Count maximal runs of word characters; the boolean records whether the
previous character was a word character. -/
def countWordsAux : List Char → Bool → Nat
  | [], _ => 0
  | c :: cs, inWord =>
    if isWordChar c then (if inWord then 0 else 1) + countWordsAux cs true
    else countWordsAux cs false

/-- Python `len(re.sub("[^\w]", " ", line).split())`: the number of maximal
runs of word characters in the line. -/
def countWords (line : String) : Nat :=
  countWordsAux line.toList false

/-- Accumulate the decimal value of a digit list; fails on a non-digit. -/
def pyParseNatAux : List Char → Nat → Option Nat
  | [], acc => some acc
  | c :: cs, acc =>
    if c.isDigit then pyParseNatAux cs (acc * 10 + (c.toNat - '0'.toNat))
    else none

/-- Python `int(s)` on a plain signed decimal numeral (no surrounding
whitespace or underscores), failing with `ValueError` otherwise. -/
def pyInt (s : String) : Except PyErr Int :=
  match s.toList with
  | [] => Except.error PyErr.valueError
  | '-' :: cs =>
    match cs, pyParseNatAux cs 0 with
    | _ :: _, some n => Except.ok (-(n : Int))
    | _, _ => Except.error PyErr.valueError
  | cs =>
    match pyParseNatAux cs 0 with
    | some n => Except.ok ((n : Int))
    | none => Except.error PyErr.valueError

/-- Python `sum([int(x) for x in l])`: parse every element, then sum; the
first unparsable element raises `ValueError`. -/
def sumIntParsed : List String → Except PyErr Int
  | [] => Except.ok 0
  | x :: xs =>
    match pyInt x, sumIntParsed xs with
    | Except.ok n, Except.ok r => Except.ok (n + r)
    | Except.error e, _ => Except.error e
    | _, Except.error e => Except.error e

/-- Replace the last element of a list by its image under `f`
(Python `xs[-1] = f(xs[-1])`); the empty list is left unchanged. -/
def modifyLast (f : String → String) : List String → List String
  | [] => []
  | [x] => [f x]
  | x :: y :: xs => x :: modifyLast f (y :: xs)

/-- The loop body of `FARO_Document._preprocess_file_lines` over the split
lines, carrying the accumulated `new_file_lines`.  Note that the source
tests `len(line.strip("")) == 0`, and `str.strip("")` strips no characters,
so the blank test is `line == ""`. -/
def preprocessLoop (clean : String → String) (joinLines : Bool) :
    List String → List String → List String
  | acc, [] => acc
  | acc, line :: rest =>
    if joinLines then
      preprocessLoop clean joinLines (acc ++ [clean line]) rest
    else
      if line = "" ∨ acc = [] then
        preprocessLoop clean joinLines (acc ++ [clean line]) rest
      else
        preprocessLoop clean joinLines
          (modifyLast (fun u => u ++ " " ++ clean line) acc) rest

/-- `FARO_Document._preprocess_file_lines(file_lines, join_lines)`:
strip the raw text, split it on newlines (`[]` when the text is `None`),
then run the accumulation loop. -/
def preprocessFileLines (clean : String → String) (fileLines : Option String)
    (joinLines : Bool) : List String :=
  preprocessLoop clean joinLines []
    (match fileLines with
     | some s => pySplitLines (pyStrip s)
     | none => [])

/-- The attributes that `FARO_Document._get_document_metadata` may set on the
object; `none` means the attribute was never assigned (or assigned `None`). -/
structure FieldState where
  metadata_error : Option Bool := none
  content_type : Option MetaValue := none
  author : Option MetaValue := none
  num_of_pages : Option MetaValue := none
  filesize : Option MetaValue := none
  ocr_parsing : Option MetaValue := none
  creation_date : Option MetaValue := none
  num_words : Option Nat := none
  num_chars : Option Nat := none
  lang : Option MetaValue := none
deriving DecidableEq

/-- First-match-wins fallback lookup over a list of key aliases. -/
def firstKey (m : MetaDict) : List String → Option MetaValue
  | [] => none
  | k :: ks =>
    match List.lookup k m with
    | some v => some v
    | none => firstKey m ks

/-- The author alias chain, in source order. -/
def authorKeys : List String :=
  ["Author", "meta:author", "creator", "dc:creator", "pdf:docinfo:creator",
   "producer", "pdf:docinfo:producer"]

/-- The page-count alias chain, in source order. -/
def pageKeys : List String :=
  ["xmpTPg:NPages", "Page-Count", "meta:page-count"]

/-- The creation-date alias chain, in source order. -/
def dateKeys : List String :=
  ["Creation-Date", "meta:creation_date", "created"]

/-- Resolution of the content type from the raw `Content-Type` value:
`str(value[0])` when the value is a list (raising `IndexError` on an empty
list), the value itself otherwise. -/
def contentTypeOf : MetaValue → Except PyErr MetaValue
  | MetaValue.list [] => Except.error PyErr.indexError
  | MetaValue.list (x :: _) => Except.ok (MetaValue.str x)
  | v => Except.ok v

/-- Resolution of `num_of_pages` from the page alias chain: default `1` when
no alias is present; a list value is replaced by the sum of its
integer-parsed elements (`ValueError` on an unparsable element); any other
value passes through verbatim. -/
def pagesOf : Option MetaValue → Except PyErr MetaValue
  | none => Except.ok (MetaValue.int 1)
  | some (MetaValue.list l) =>
    match sumIntParsed l with
    | Except.ok n => Except.ok (MetaValue.int n)
    | Except.error e => Except.error e
  | some v => Except.ok v

/-- Resolution of `creation_date` from the date alias chain: a list value is
replaced by its first element (`IndexError` on an empty list); anything else
passes through (including absence, which leaves the field `None`). -/
def creationDateOf : Option MetaValue → Except PyErr (Option MetaValue)
  | some (MetaValue.list []) => Except.error PyErr.indexError
  | some (MetaValue.list (x :: _)) => Except.ok (some (MetaValue.str x))
  | v => Except.ok v

/-- Total word count over the preprocessed lines. -/
def sumWords (fileLines : List String) : Nat :=
  fileLines.foldl (fun a l => a + countWords l) 0

/-- Total character count over the preprocessed lines. -/
def sumChars (fileLines : List String) : Nat :=
  fileLines.foldl (fun a l => a + l.length) 0

/-- Final value of `self.lang`: the detector run on the space-joined
preprocessed lines, or the sentinel `"unk"` when the detector raises its
detection-specific exception.  The source first assigns any
`metadata["language"]` value to `self.lang`, but that assignment is
unconditionally overwritten by this detection step, so only the detection
result survives. -/
def detectedLang (det : String → Except Unit String)
    (fileLines : List String) : String :=
  match det (pyJoin " " fileLines) with
  | Except.ok code => code
  | Except.error _ => "unk"

/-- The record of attributes produced by a successful run of
`_get_document_metadata` on a non-null metadata map. -/
def mkFields (det : String → Except Unit String) (fileLines : List String)
    (m : MetaDict) (ct pages : MetaValue) (cd : Option MetaValue) : FieldState :=
  { metadata_error := none
    content_type := some ct
    author := firstKey m authorKeys
    num_of_pages := some pages
    filesize := List.lookup "filesize" m
    ocr_parsing := some ((List.lookup "ocr_parsing" m).getD (MetaValue.bool false))
    creation_date := cd
    num_words := some (sumWords fileLines)
    num_chars := some (sumChars fileLines)
    lang := some (MetaValue.str (detectedLang det fileLines)) }

/-- `FARO_Document._get_document_metadata(metadata)`.  A null map sets the
error flag and returns at once, leaving every other attribute unset.
Otherwise the unguarded `metadata["Content-Type"]` lookup comes first
(raising `KeyError` when the key is absent), then content type, page count
and creation date are resolved, any of which can raise; on success all
attributes are assembled in `mkFields`. -/
def getDocumentMetadata (det : String → Except Unit String)
    (fileLines : List String) (metadata : Option MetaDict) :
    Except PyErr FieldState :=
  match metadata with
  | none => Except.ok { metadata_error := some true }
  | some m =>
    match List.lookup "Content-Type" m with
    | none => Except.error (PyErr.keyError "Content-Type")
    | some ctRaw =>
      match contentTypeOf ctRaw with
      | Except.error e => Except.error e
      | Except.ok ct =>
        match pagesOf (firstKey m pageKeys) with
        | Except.error e => Except.error e
        | Except.ok pages =>
          match creationDateOf (firstKey m dateKeys) with
          | Except.error e => Except.error e
          | Except.ok cd => Except.ok (mkFields det fileLines m ct pages cd)

/-- The constructed document: preprocessed lines, resolved attributes, path. -/
structure FARO_Document where
  file_lines : List String
  fields : FieldState
  document_path : String
deriving DecidableEq

/-- `FARO_Document.__init__(document_path, split_lines)`.  The external
`parse_file` call is represented by its outcome `parseResult`; any exception
it raised is swallowed and replaced by empty text and a null metadata map.
Exceptions raised later, by `_get_document_metadata`, propagate. -/
def FARO_init (clean : String → String) (det : String → Except Unit String)
    (parseResult : Except PyErr (Option String × Option MetaDict))
    (documentPath : String) (splitLines : Bool) : Except PyErr FARO_Document :=
  match
    (match parseResult with
     | Except.ok r => r
     | Except.error _ => (some "", none)) with
  | (fileLines, metadata) =>
    match getDocumentMetadata det (preprocessFileLines clean fileLines splitLines) metadata with
    | Except.error e => Except.error e
    | Except.ok fields =>
      Except.ok { file_lines := preprocessFileLines clean fileLines splitLines
                  fields := fields
                  document_path := documentPath }

/-- `FARO_Document.get_metadata_dict()`: the ordered seven-field view, with
`getattr(self, name, None)` modelled by the `Option`-valued fields. -/
def getMetadataDict (d : FARO_Document) : List (String × Option MetaValue) :=
  [("meta:content-type", d.fields.content_type),
   ("meta:author", d.fields.author),
   ("meta:pages", d.fields.num_of_pages),
   ("meta:lang", d.fields.lang),
   ("meta:date", d.fields.creation_date),
   ("meta:filesize", d.fields.filesize),
   ("meta:ocr", d.fields.ocr_parsing)]

/-- Spec-side restatement of the author fallback chain, written as the
nested first-match-wins lookups the specification describes. -/
def authorFallbackSpec (m : MetaDict) : Option MetaValue :=
  match List.lookup "Author" m with
  | some v => some v
  | none =>
    match List.lookup "meta:author" m with
    | some v => some v
    | none =>
      match List.lookup "creator" m with
      | some v => some v
      | none =>
        match List.lookup "dc:creator" m with
        | some v => some v
        | none =>
          match List.lookup "pdf:docinfo:creator" m with
          | some v => some v
          | none =>
            match List.lookup "producer" m with
            | some v => some v
            | none => List.lookup "pdf:docinfo:producer" m

/-- Spec-side restatement of the page-count fallback chain. -/
def pagesFallbackSpec (m : MetaDict) : Option MetaValue :=
  match List.lookup "xmpTPg:NPages" m with
  | some v => some v
  | none =>
    match List.lookup "Page-Count" m with
    | some v => some v
    | none => List.lookup "meta:page-count" m

/-- Spec-side paragraph grouping: the current unit is emitted when a blank
line is met, and the blank line (cleaned) starts the next unit; a non-blank
line is appended to the current unit with a single space. -/
def paragraphGo (clean : String → String) (cur : String) :
    List String → List String
  | [] => [cur]
  | line :: rest =>
    if line = "" then cur :: paragraphGo clean (clean line) rest
    else paragraphGo clean (cur ++ " " ++ clean line) rest

/-- Spec-side paragraph grouping of a list of raw lines: the first line
(cleaned) starts the first unit. -/
def paragraphSpec (clean : String → String) : List String → List String
  | [] => []
  | line :: rest => paragraphGo clean (clean line) rest

/-! ## Helper lemmas -/

/-- Updating the last element of a list that ends in `cur` replaces `cur`. -/
theorem modifyLast_append (f : String → String) (acc : List String) (cur : String) :
    modifyLast f (acc ++ [cur]) = acc ++ [f cur] := by
  induction acc with
  | nil => rfl
  | cons a as ih =>
    cases as with
    | nil => rfl
    | cons b bs =>
      simp only [List.cons_append] at ih ⊢
      rw [modifyLast, ih]

/-- With the join flag set, the loop appends each cleaned line separately. -/
theorem preprocessLoop_join (clean : String → String) (ls : List String) :
    ∀ acc, preprocessLoop clean true acc ls = acc ++ ls.map clean := by
  induction ls with
  | nil => intro acc; simp [preprocessLoop]
  | cons l ls ih =>
    intro acc
    rw [preprocessLoop, if_pos rfl, ih]
    simp

/-- With the join flag unset, the loop starting from an accumulator ending in
the open unit `cur` performs the spec-side paragraph grouping. -/
theorem preprocessLoop_group (clean : String → String) (rest : List String) :
    ∀ acc cur, preprocessLoop clean false (acc ++ [cur]) rest
      = acc ++ paragraphGo clean cur rest := by
  induction rest with
  | nil => intro acc cur; simp [preprocessLoop, paragraphGo]
  | cons line rest ih =>
    intro acc cur
    rw [preprocessLoop, if_neg (by simp), paragraphGo]
    by_cases hl : line = ""
    · rw [if_pos (Or.inl hl), if_pos hl]
      have := ih (acc ++ [cur]) (clean line)
      simp only [List.append_assoc, List.singleton_append] at this ⊢
      exact this
    · rw [if_neg (by simp [hl]), if_neg hl, modifyLast_append]
      exact ih acc (cur ++ " " ++ clean line)

/-- The embedded author fallback chain agrees with its spec-side restatement. -/
theorem firstKey_authorKeys (m : MetaDict) :
    firstKey m authorKeys = authorFallbackSpec m := by
  simp only [firstKey, authorKeys, authorFallbackSpec]
  cases List.lookup "Author" m <;>
    cases List.lookup "meta:author" m <;>
      cases List.lookup "creator" m <;>
        cases List.lookup "dc:creator" m <;>
          cases List.lookup "pdf:docinfo:creator" m <;>
            cases List.lookup "producer" m <;>
              cases List.lookup "pdf:docinfo:producer" m <;> rfl

/-- The embedded page-count fallback chain agrees with its spec-side
restatement. -/
theorem firstKey_pageKeys (m : MetaDict) :
    firstKey m pageKeys = pagesFallbackSpec m := by
  simp only [firstKey, pageKeys, pagesFallbackSpec]
  cases List.lookup "xmpTPg:NPages" m <;>
    cases List.lookup "Page-Count" m <;>
      cases List.lookup "meta:page-count" m <;> rfl

/-- Inversion of a successful `_get_document_metadata` run on a non-null
metadata map: the unguarded content-type lookup succeeded, each fallible
resolution step succeeded, and the resulting attributes are `mkFields`. -/
theorem gdm_ok_inv (det : String → Except Unit String) (fl : List String)
    (m : MetaDict) (st : FieldState)
    (h : getDocumentMetadata det fl (some m) = Except.ok st) :
    ∃ ctRaw ct pages cd,
      List.lookup "Content-Type" m = some ctRaw ∧
      contentTypeOf ctRaw = Except.ok ct ∧
      pagesOf (firstKey m pageKeys) = Except.ok pages ∧
      creationDateOf (firstKey m dateKeys) = Except.ok cd ∧
      st = mkFields det fl m ct pages cd := by
  simp only [getDocumentMetadata] at h
  cases hct : List.lookup "Content-Type" m with
  | none => simp only [hct] at h; exact Except.noConfusion h
  | some ctRaw =>
    simp only [hct] at h
    cases hc : contentTypeOf ctRaw with
    | error e => simp only [hc] at h; exact Except.noConfusion h
    | ok ct =>
      simp only [hc] at h
      cases hp : pagesOf (firstKey m pageKeys) with
      | error e => simp only [hp] at h; exact Except.noConfusion h
      | ok pages =>
        simp only [hp] at h
        cases hd : creationDateOf (firstKey m dateKeys) with
        | error e => simp only [hd] at h; exact Except.noConfusion h
        | ok cd =>
          simp only [hd, Except.ok.injEq] at h
          exact ⟨ctRaw, ct, pages, cd, rfl, hc, rfl, rfl, h.symm⟩

/-! ## Claim theorems -/

/-- C1 (amended): when the parse produced a null metadata map, construction
completes with the metadata error flag set to true, every value of the
ordered metadata dict is null, and the word and character counts are NOT
computed — resolution returns before reaching them, leaving both unset. -/
theorem faro_null_metadata (clean : String → String)
    (det : String → Except Unit String) (text : Option String)
    (path : String) (split : Bool) :
    ∃ d, FARO_init clean det (Except.ok (text, none)) path split = Except.ok d
      ∧ d.fields.metadata_error = some true
      ∧ getMetadataDict d =
          [("meta:content-type", none), ("meta:author", none), ("meta:pages", none),
           ("meta:lang", none), ("meta:date", none), ("meta:filesize", none),
           ("meta:ocr", none)]
      ∧ d.fields.num_words = none ∧ d.fields.num_chars = none
      ∧ d.file_lines = preprocessFileLines clean text split :=
  ⟨{ file_lines := preprocessFileLines clean text split,
     fields := { metadata_error := some true }, document_path := path },
   rfl, rfl, rfl, rfl, rfl, rfl⟩

/-- C1 counterexample: the claim asserts the word count is still computed
from the preprocessed lines (here "Hello world", two words), but the early
return on a null metadata map leaves it unset. -/
theorem faro_null_counts_counterexample :
    (FARO_init (fun s => s) (fun _ => Except.ok "en")
        (Except.ok (some "Hello world", none)) "doc" true).map
        (fun d => d.fields.num_words)
      = Except.ok none
  ∧ (none : Option Nat) ≠ some 2 := ⟨rfl, by decide⟩

/-- C2 (amended): preprocessing the raw text "Hello.\n\nWorld." with the
merge flag false yields exactly two line-groups, the cleaned "Hello." and
the cleaned empty line followed by a space and the cleaned "World." — with
an identity-like cleaner, "Hello." and " World.": the blank line starts the
second group and contributes a leading space separator to it. -/
theorem preprocess_hello_groups (clean : String → String) :
    preprocessFileLines clean (some "Hello.\n\nWorld.") false
      = [clean "Hello.", clean "" ++ " " ++ clean "World."] := rfl

/-- C2 counterexample: with the identity cleaner the second group is
" World.", not "World." as the claim states — the second group carries a
leading space separator. -/
theorem preprocess_hello_counterexample :
    preprocessFileLines (fun s => s) (some "Hello.\n\nWorld.") false
      = ["Hello.", " World."]
  ∧ ["Hello.", " World."] ≠ ["Hello.", "World."] := ⟨rfl, by decide⟩

/-- C3 (amended): preprocessing strips the raw text, splits it on newlines
and cleans each line; when the merge flag is true each cleaned line becomes
its own group (no concatenation happens), and when it is false consecutive
lines are concatenated into paragraph units with a space, where an empty
line or the first line starts a new unit (a unit started by an empty line
begins with the cleaned empty line followed by a space). -/
theorem preprocess_branches (clean : String → String) (t : String) (j : Bool) :
    preprocessFileLines clean (some t) j =
      if j then (pySplitLines (pyStrip t)).map clean
      else paragraphSpec clean (pySplitLines (pyStrip t)) := by
  cases j with
  | true =>
    simp only [preprocessFileLines, if_pos]
    exact preprocessLoop_join clean (pySplitLines (pyStrip t)) []
  | false =>
    simp only [preprocessFileLines, Bool.false_eq_true, if_false]
    cases h : pySplitLines (pyStrip t) with
    | nil => rfl
    | cons l ls =>
      rw [preprocessLoop, if_neg (by simp), if_pos (Or.inr rfl), paragraphSpec]
      exact preprocessLoop_group clean ls [] (clean l)

/-- C3 counterexample: with the merge flag true the cleaned lines are NOT
concatenated with a space; the raw text "a\nb" yields the two separate
groups "a" and "b" rather than the single group "a b". -/
theorem preprocess_merge_counterexample :
    preprocessFileLines (fun s => s) (some "a\nb") true = ["a", "b"]
  ∧ ["a", "b"] ≠ ["a b"] := ⟨rfl, by decide⟩

/-- C9 (confirmed): when the external parser raises, the exception is
swallowed: the document is built from empty text and a null metadata map,
construction completes, the metadata error flag is set, and the
preprocessed line list is the preprocessing of the empty text (a single
group, the cleaned empty line), for either value of the merge flag. -/
theorem parser_failure_swallowed (clean : String → String)
    (det : String → Except Unit String) (path : String) (split : Bool)
    (e : PyErr) :
    FARO_init clean det (Except.error e) path split =
      Except.ok { file_lines := [clean ""],
                  fields := { metadata_error := some true },
                  document_path := path }
  ∧ preprocessFileLines clean (some "") split = [clean ""] := by
  cases split <;> exact ⟨rfl, rfl⟩

/-- C4 (amended): for every constructed document whose metadata map is
non-null, the language field is set and never null: it is the detector's
result on the space-joined preprocessed lines, or the sentinel "unk" when
the detector raises its detection-specific exception, and this value is
independent of (overrides) any "language" entry of the metadata map. -/
theorem lang_detected_overrides (det : String → Except Unit String)
    (fl : List String) (m : MetaDict) (st : FieldState)
    (h : getDocumentMetadata det fl (some m) = Except.ok st) :
    st.lang = some (MetaValue.str (detectedLang det fl)) ∧ st.lang ≠ none := by
  obtain ⟨ctRaw, ct, pages, cd, _, _, _, _, rfl⟩ := gdm_ok_inv det fl m st h
  exact ⟨rfl, by simp [mkFields]⟩

/-- C4 witness: a concrete successful resolution, with the metadata map
supplying a "language" entry "fr" that is overridden by the detected "en". -/
theorem lang_detected_overrides_witness :
    (⟨none, some (MetaValue.str "text/plain"), none, some (MetaValue.int 1),
        none, some (MetaValue.bool false), none, some 1, some 4,
        some (MetaValue.str "en")⟩ : FieldState).lang
      = some (MetaValue.str "en")
    ∧ (⟨none, some (MetaValue.str "text/plain"), none, some (MetaValue.int 1),
        none, some (MetaValue.bool false), none, some 1, some 4,
        some (MetaValue.str "en")⟩ : FieldState).lang ≠ none :=
  lang_detected_overrides (fun _ => Except.ok "en") ["hola"]
    [("Content-Type", MetaValue.str "text/plain"), ("language", MetaValue.str "fr")]
    _ rfl

/-- C4 counterexample: the claim's "every constructed document" fails — a
document constructed from a null metadata map (here via a successful parse
that returned no metadata) has a null language field, because the early
return skips language detection entirely. -/
theorem lang_unset_counterexample :
    (FARO_init (fun s => s) (fun _ => Except.ok "en")
        (Except.ok (some "hola", none)) "doc" true).map (fun d => d.fields.lang)
      = Except.ok none
  ∧ (none : Option MetaValue) ≠ some (MetaValue.str "unk") := ⟨rfl, by decide⟩

/-- C5 (confirmed): for every non-null metadata map on which resolution
succeeds, the resolved page count is the value of the first present key
among "xmpTPg:NPages", then "Page-Count", then "meta:page-count"; a
non-list value is taken verbatim, a list value is replaced by the sum of
its integer-parsed elements, and the count is 1 when no alias is present. -/
theorem pages_fallback_chain (det : String → Except Unit String)
    (fl : List String) (m : MetaDict) (st : FieldState)
    (h : getDocumentMetadata det fl (some m) = Except.ok st) :
    (pagesFallbackSpec m = none → st.num_of_pages = some (MetaValue.int 1))
  ∧ (∀ v, pagesFallbackSpec m = some v → (∀ l, v ≠ MetaValue.list l) →
      st.num_of_pages = some v)
  ∧ (∀ l, pagesFallbackSpec m = some (MetaValue.list l) →
      ∃ n, sumIntParsed l = Except.ok n ∧
        st.num_of_pages = some (MetaValue.int n)) := by
  obtain ⟨ctRaw, ct, pages, cd, hct, hc, hp, hd, rfl⟩ := gdm_ok_inv det fl m st h
  rw [firstKey_pageKeys] at hp
  refine ⟨?_, ?_, ?_⟩
  · intro h0
    rw [h0] at hp
    simp only [pagesOf, Except.ok.injEq] at hp
    simp [mkFields, hp]
  · intro v hv hnl
    rw [hv] at hp
    cases v with
    | list l => exact absurd rfl (hnl l)
    | str s => simp only [pagesOf, Except.ok.injEq] at hp; simp [mkFields, hp]
    | bool b => simp only [pagesOf, Except.ok.injEq] at hp; simp [mkFields, hp]
    | int n => simp only [pagesOf, Except.ok.injEq] at hp; simp [mkFields, hp]
  · intro l hl
    rw [hl] at hp
    simp only [pagesOf] at hp
    cases hs : sumIntParsed l with
    | error e => rw [hs] at hp; exact Except.noConfusion hp
    | ok n =>
      rw [hs] at hp
      simp only [Except.ok.injEq] at hp
      exact ⟨n, rfl, by simp [mkFields, hp]⟩

/-- C5 witness: a metadata map whose "Page-Count" is the list ["2", "3"]
resolves, through the list branch of the chain, to the page count 5. -/
theorem pages_fallback_chain_witness :
    ∃ n, sumIntParsed ["2", "3"] = Except.ok n ∧
      (⟨none, some (MetaValue.str "t"), none, some (MetaValue.int 5), none,
          some (MetaValue.bool false), none, some 0, some 0,
          some (MetaValue.str "en")⟩ : FieldState).num_of_pages
        = some (MetaValue.int n) :=
  (pages_fallback_chain (fun _ => Except.ok "en") []
      [("Content-Type", MetaValue.str "t"), ("Page-Count", MetaValue.list ["2", "3"])]
      _ rfl).2.2 ["2", "3"] rfl

/-- C6 (amended): the resolved page count is the non-negative integer 1
when no page-count alias is present; when the first present alias is a
list it is the integer sum of the integer-parsed elements, which may be
negative; and a non-list alias value is passed through verbatim, so it
need not be an integer at all. -/
theorem pages_integer_cases (det : String → Except Unit String)
    (fl : List String) (m : MetaDict) (st : FieldState)
    (h : getDocumentMetadata det fl (some m) = Except.ok st) :
    (pagesFallbackSpec m = none →
      st.num_of_pages = some (MetaValue.int 1) ∧ (0 : Int) ≤ 1)
  ∧ (∀ l n, pagesFallbackSpec m = some (MetaValue.list l) →
      sumIntParsed l = Except.ok n → st.num_of_pages = some (MetaValue.int n))
  ∧ (∀ v, pagesFallbackSpec m = some v → (∀ l, v ≠ MetaValue.list l) →
      st.num_of_pages = some v) := by
  obtain ⟨ctRaw, ct, pages, cd, hct, hc, hp, hd, rfl⟩ := gdm_ok_inv det fl m st h
  rw [firstKey_pageKeys] at hp
  refine ⟨?_, ?_, ?_⟩
  · intro h0
    rw [h0] at hp
    simp only [pagesOf, Except.ok.injEq] at hp
    exact ⟨by simp [mkFields, hp], by decide⟩
  · intro l n hl hs
    rw [hl] at hp
    simp only [pagesOf, hs, Except.ok.injEq] at hp
    simp [mkFields, hp]
  · intro v hv hnl
    rw [hv] at hp
    cases v with
    | list l => exact absurd rfl (hnl l)
    | str s => simp only [pagesOf, Except.ok.injEq] at hp; simp [mkFields, hp]
    | bool b => simp only [pagesOf, Except.ok.injEq] at hp; simp [mkFields, hp]
    | int n => simp only [pagesOf, Except.ok.injEq] at hp; simp [mkFields, hp]

/-- C6 witness: with no page-count alias present the resolved page count is
the non-negative integer 1. -/
theorem pages_integer_cases_witness :
    (⟨none, some (MetaValue.str "t"), none, some (MetaValue.int 1), none,
        some (MetaValue.bool false), none, some 0, some 0,
        some (MetaValue.str "en")⟩ : FieldState).num_of_pages
      = some (MetaValue.int 1) ∧ (0 : Int) ≤ 1 :=
  (pages_integer_cases (fun _ => Except.ok "en") []
      [("Content-Type", MetaValue.str "t")] _ rfl).1 rfl

/-- C6 counterexample: a document constructed with "xmpTPg:NPages" mapped
to the list ["-3"] resolves its page count to the negative integer -3, so
the resolved page count is not always non-negative. -/
theorem pages_negative_counterexample :
    FARO_init (fun s => s) (fun _ => Except.ok "en")
        (Except.ok (some "", some [("Content-Type", MetaValue.str "t"),
          ("xmpTPg:NPages", MetaValue.list ["-3"])])) "p" true
      = Except.ok ⟨[""], ⟨none, some (MetaValue.str "t"), none,
          some (MetaValue.int (-3)), none, some (MetaValue.bool false), none,
          some 0, some 0, some (MetaValue.str "en")⟩, "p"⟩
  ∧ (-3 : Int) < 0 := ⟨rfl, by decide⟩

/-- C7 (confirmed): for every non-null metadata map on which resolution
succeeds, the resolved author is the value of the first present key in the
order "Author", "meta:author", "creator", "dc:creator",
"pdf:docinfo:creator", "producer", "pdf:docinfo:producer" (null when none
is present); in particular, when "Author" is absent and "meta:author" maps
to "Jane Doe", the resolved author is "Jane Doe". -/
theorem author_fallback_chain (det : String → Except Unit String)
    (fl : List String) (m : MetaDict) (st : FieldState)
    (h : getDocumentMetadata det fl (some m) = Except.ok st) :
    st.author = authorFallbackSpec m
  ∧ (List.lookup "Author" m = none →
      List.lookup "meta:author" m = some (MetaValue.str "Jane Doe") →
      st.author = some (MetaValue.str "Jane Doe")) := by
  obtain ⟨ctRaw, ct, pages, cd, _, _, _, _, rfl⟩ := gdm_ok_inv det fl m st h
  have h1 : (mkFields det fl m ct pages cd).author = authorFallbackSpec m := by
    simp [mkFields, firstKey_authorKeys]
  refine ⟨h1, fun ha hma => ?_⟩
  rw [h1]
  unfold authorFallbackSpec
  rw [ha, hma]

/-- C7 witness: a concrete map with "Author" absent and "meta:author" set
to "Jane Doe" resolves the author to "Jane Doe". -/
theorem author_fallback_chain_witness :
    (⟨none, some (MetaValue.str "t"), some (MetaValue.str "Jane Doe"),
        some (MetaValue.int 1), none, some (MetaValue.bool false), none,
        some 0, some 0, some (MetaValue.str "en")⟩ : FieldState).author
      = some (MetaValue.str "Jane Doe") :=
  (author_fallback_chain (fun _ => Except.ok "en") []
      [("Content-Type", MetaValue.str "t"), ("meta:author", MetaValue.str "Jane Doe")]
      _ rfl).2 rfl rfl

/-- C8 (amended): for every non-null metadata map whose "Content-Type"
value is a NON-EMPTY list, the resolved content type equals the first
element of that list; an empty list instead raises an index error. -/
theorem content_type_list_first (det : String → Except Unit String)
    (fl : List String) (m : MetaDict) (st : FieldState) (x : String)
    (l : List String)
    (h : getDocumentMetadata det fl (some m) = Except.ok st)
    (hct : List.lookup "Content-Type" m = some (MetaValue.list (x :: l))) :
    st.content_type = some (MetaValue.str x) := by
  obtain ⟨ctRaw, ct, pages, cd, hct2, hc, _, _, rfl⟩ := gdm_ok_inv det fl m st h
  rw [hct] at hct2
  injection hct2 with hct2
  rw [← hct2] at hc
  simp only [contentTypeOf, Except.ok.injEq] at hc
  simp [mkFields, hc]

/-- C8 witness: a map whose "Content-Type" is the list ["a/b", "c"]
resolves its content type to the first element "a/b". -/
theorem content_type_list_first_witness :
    (⟨none, some (MetaValue.str "a/b"), none, some (MetaValue.int 1), none,
        some (MetaValue.bool false), none, some 0, some 0,
        some (MetaValue.str "en")⟩ : FieldState).content_type
      = some (MetaValue.str "a/b") :=
  content_type_list_first (fun _ => Except.ok "en") []
    [("Content-Type", MetaValue.list ["a/b", "c"])] _ "a/b" ["c"] rfl rfl

/-- C8 counterexample: with "Content-Type" mapped to the EMPTY list the
claim's universally quantified conclusion fails — no content type is
resolved at all; construction raises an index error instead. -/
theorem content_type_empty_list_counterexample :
    FARO_init (fun s => s) (fun _ => Except.ok "en")
        (Except.ok (some "", some [("Content-Type", MetaValue.list [])])) "p" true
      = Except.error PyErr.indexError := rfl

/-- C10 (confirmed): for every non-null metadata map without the key
"Content-Type", the unguarded lookup raises a KeyError that propagates out
of document construction; by contrast a map holding ONLY "Content-Type"
resolves successfully, every other field coming from guarded fallback
lookups and defaults. -/
theorem missing_content_type_keyerror (clean : String → String)
    (det : String → Except Unit String) (text : Option String) (path : String)
    (split : Bool) (m : MetaDict) (fl : List String) (s : String)
    (hm : List.lookup "Content-Type" m = none) :
    FARO_init clean det (Except.ok (text, some m)) path split
        = Except.error (PyErr.keyError "Content-Type")
  ∧ getDocumentMetadata det fl (some [("Content-Type", MetaValue.str s)])
        = Except.ok (mkFields det fl [("Content-Type", MetaValue.str s)]
            (MetaValue.str s) (MetaValue.int 1) none) := by
  refine ⟨?_, rfl⟩
  simp only [FARO_init, getDocumentMetadata, hm]

/-- C10 witness: a concrete map lacking "Content-Type" makes construction
fail with the KeyError, while the singleton map with only "Content-Type"
resolves with every other field defaulted. -/
theorem missing_content_type_keyerror_witness :
    FARO_init (fun s => s) (fun _ => Except.ok "en")
        (Except.ok (some "", some [("Author", MetaValue.str "a")])) "p" true
      = Except.error (PyErr.keyError "Content-Type")
  ∧ getDocumentMetadata (fun _ => Except.ok "en") ["hola"]
        (some [("Content-Type", MetaValue.str "text/plain")])
      = Except.ok (mkFields (fun _ => Except.ok "en") ["hola"]
          [("Content-Type", MetaValue.str "text/plain")]
          (MetaValue.str "text/plain") (MetaValue.int 1) none) :=
  missing_content_type_keyerror (fun s => s) (fun _ => Except.ok "en") (some "")
    "p" true [("Author", MetaValue.str "a")] ["hola"] "text/plain" rfl
